import Mathlib

/-!
Shallow embedding of `TwoBtnMidiController.ino` (two-button MIDI controller).

The sketch is a single-threaded Arduino program: two `OneButton` inputs whose
click / long-press-start / long-press-stop callbacks are dynamically rebound by
the entry actions of an `arduino-fsm` state machine, a `settingsStruct` record
persisted in EEPROM behind a version byte, and MIDI program-change output.

Modelling choices:
* `byte` fields of `settingsStruct` are `Nat` values; the C++ `byte` wraparound
  of `++`/`--` is written explicitly as `(x + 1) % 256` / `(x + 255) % 256`.
* C `int` globals (`mode1_currentPC`, `mode3_current_btn1PC`, ...) are `Int`.
* Dynamic callback rebinding is modelled by storing the currently attached
  handler (an enumeration naming the source function) in the system state;
  a button event runs whatever handler is currently attached, exactly as
  `OneButton` does.
* `main_fsm.trigger(code)` is a lookup in the transition table built in
  `setup()`; a hit runs the exit action of the source state (only
  `state_setup_exit` has one, and it only calls `delay`, so it has no effect
  on the modelled state) and then the entry action of the target state.
* Side effects are logged: `sent` records every `MIDI.sendProgramChange`
  call (program, channel), `saves` records every `saveSettings`/`EEPROM.put`
  call with the record written, `display` records every display update.
-/

/-- The persisted configuration record `struct settingsStruct`.
All fields are C++ `byte` values (0..255). -/
structure Settings where
  sversion : Nat
  midiChannel : Nat
  mode1_lowlimitPC : Nat
  mode1_highlimitPC : Nat
  mode2_btn1PC : Nat
  mode2_btn2PC : Nat
  mode3_btn1PC1 : Nat
  mode3_btn1PC2 : Nat
  mode3_btn2PC1 : Nat
  mode3_btn2PC2 : Nat
deriving DecidableEq, Repr

/-- The constant `const int CONFIG_VERSION = 1`. -/
def CONFIG_VERSION : Nat := 1

/-- The compiled-in default record written by `loadDefaultSettings()`. -/
def loadDefaultSettings : Settings :=
  { sversion := CONFIG_VERSION
    midiChannel := 1
    mode1_lowlimitPC := 0
    mode1_highlimitPC := 16
    mode2_btn1PC := 17
    mode2_btn2PC := 18
    mode3_btn1PC1 := 19
    mode3_btn1PC2 := 20
    mode3_btn2PC1 := 21
    mode3_btn2PC2 := 22 }

/-- Model of `readSettings()`: `EEPROM.get` the stored record, then replace
it by the defaults when the stored version byte differs from
`CONFIG_VERSION`. The argument is the record currently in the EEPROM; the
result is the in-memory `_settings` after the call. -/
def readSettings (stored : Settings) : Settings :=
  if stored.sversion ≠ CONFIG_VERSION then loadDefaultSettings else stored

/-- C++ `byte` increment (`x++` on a `byte`). -/
def byteInc (x : Nat) : Nat := (x + 1) % 256

/-- C++ `byte` decrement (`x--` on a `byte`). -/
def byteDec (x : Nat) : Nat := (x + 255) % 256

/-- Value computed by `cyclePcDown()` for `mode1_currentPC` (an `int`):
wrap to the high limit when equal to the low limit, otherwise decrement. -/
def cyclePcDownVal (st : Settings) (cur : Int) : Int :=
  if cur = (st.mode1_lowlimitPC : Int) then (st.mode1_highlimitPC : Int) else cur - 1

/-- Value computed by `cyclePcUp()` for `mode1_currentPC` (an `int`):
wrap to the low limit when equal to the high limit, otherwise increment. -/
def cyclePcUpVal (st : Settings) (cur : Int) : Int :=
  if cur = (st.mode1_highlimitPC : Int) then (st.mode1_lowlimitPC : Int) else cur + 1

/-- Value computed by `sendBtn1TogglePC()` for `mode3_current_btn1PC`. -/
def toggleBtn1Val (st : Settings) (cur : Int) : Int :=
  if cur = (st.mode3_btn1PC1 : Int) then (st.mode3_btn1PC2 : Int) else (st.mode3_btn1PC1 : Int)

/-- Value computed by `sendBtn2TogglePC()` for `mode3_current_btn2PC`. -/
def toggleBtn2Val (st : Settings) (cur : Int) : Int :=
  if cur = (st.mode3_btn2PC1 : Int) then (st.mode3_btn2PC2 : Int) else (st.mode3_btn2PC1 : Int)

/-- Value computed by `modeDown()` for `run_mode` (an `int`, here `Nat`
since it only ever holds 1..3). -/
def modeDownVal (m : Nat) : Nat :=
  if m = 1 then 3 else if 1 < m then m - 1 else m

/-- Value computed by `modeUp()` for `run_mode`. -/
def modeUpVal (m : Nat) : Nat :=
  if m = 3 then 1 else if m < 3 then m + 1 else m

/-- Value computed by `midiChnDown()` for `_settings.midiChannel` (a `byte`). -/
def midiChnDownVal (ch : Nat) : Nat :=
  if ch = 1 then 16 else byteDec ch

/-- Value computed by `midiChnUp()` for `_settings.midiChannel` (a `byte`). -/
def midiChnUpVal (ch : Nat) : Nat :=
  if ch = 16 then 1 else byteInc ch

/-- The shared shape of the setup edit decrements
(`mode1LowLimitDecrease`, `mode1HiLimitDecrease`, `mode2Btn1Decrease`,
`mode2Btn2Decrease`): wrap 0 to 127, otherwise decrement the `byte`. -/
def pcEditDecVal (x : Nat) : Nat :=
  if x = 0 then 127 else byteDec x

/-- The shared shape of the setup edit increments
(`mode1LowLimitIncrease`, `mode1HiLimitIncrease`, `mode2Btn1Increase`,
`mode2Btn2Increase`): wrap 127 to 0, otherwise increment the `byte`. -/
def pcEditIncVal (x : Nat) : Nat :=
  if x = 127 then 0 else byteInc x

/-- The states of `main_fsm`, one per global `State` object. -/
inductive NavState
  | state_init
  | state_run
  | state_setup_mode
  | state_setup_midi
  | state_setup_mode1
  | state_setup_mode1_low
  | state_setup_mode1_hi
  | state_setup_mode2
  | state_setup_mode2_btn1
  | state_setup_mode2_btn2
  | state_setup_mode3
  | state_setup_mode3_btn1PC1
  | state_setup_mode3_btn1PC2
  | state_setup_mode3_btn2PC1
  | state_setup_mode3_btn2PC2
  | state_setup_exit
deriving DecidableEq, Repr

/-- The click callbacks that are ever passed to `attachClick`, plus
`unattached` for a button whose click callback was never attached. -/
inductive ClickHandler
  | unattached
  | cyclePcDown
  | cyclePcUp
  | sendBtn1PC
  | sendBtn2PC
  | sendBtn1TogglePC
  | sendBtn2TogglePC
  | modeDown
  | modeUp
  | midiChnDown
  | midiChnUp
  | mode1LowLimitDecrease
  | mode1LowLimitIncrease
  | mode1HiLimitDecrease
  | mode1HiLimitIncrease
  | mode2Btn1Decrease
  | mode2Btn1Increase
  | mode2Btn2Decrease
  | mode2Btn2Increase
  | nullClick
deriving DecidableEq, Repr

/-- The long-press-stop callbacks that are ever passed to
`attachLongPressStop`, plus `unattached`. -/
inductive StopHandler
  | unattached
  | longPressFromRun
  | longPressFromSetupMode
  | longPressFromSetupMidi
  | longPressFromSetupMode1
  | longPressFromSetupMode1Low
  | longPressFromSetupMode1Hi
  | longPressFromSetupMode2
  | longPressFromSetupMode2Btn1
  | longPressFromSetupMode2Btn2
  | longPressFromSetupMode3
  | longPressToRun
deriving DecidableEq, Repr

/-- One display update: the arguments of the `updateDisplay` /
`segDisp.setNumber` calls, by call site. -/
inductive DisplayMsg
  | initVersion
  | dispOp (n : Nat)
  | dispPC (n : Int)
  | dispCh (n : Nat)
  | dispSetupOp
  | dispSetupMidi
  | dispSetupMode1
  | dispSetupLow
  | dispSetupHi
  | dispSetupMode2
  | dispSetupB1
  | dispSetupB2
  | dispSetupMode3
  | dispSet
  | dispSave
  | dispRet
deriving DecidableEq, Repr

/-- The whole mutable state of the sketch: the globals, the current FSM
state, the currently attached callbacks, and logs of the outward side
effects (display updates, MIDI sends, EEPROM writes), most recent first. -/
structure Sys where
  settings : Settings
  mode1_currentPC : Int
  mode3_current_btn1PC : Int
  mode3_current_btn2PC : Int
  btn1_state : Nat
  btn2_state : Nat
  run_mode : Nat
  nav : NavState
  click1 : ClickHandler
  click2 : ClickHandler
  stop1 : StopHandler
  stop2 : StopHandler
  startsAttached : Bool
  display : List DisplayMsg
  sent : List (Int × Nat)
  saves : List Settings
deriving DecidableEq, Repr

/-- Trigger code `TO_RUN`. -/
def TO_RUN : Nat := 1
/-- Trigger code `TO_SETUP_MODE`. -/
def TO_SETUP_MODE : Nat := 2
/-- Trigger code `TO_SETUP_MIDI`. -/
def TO_SETUP_MIDI : Nat := 3
/-- Trigger code `TO_SETUP_MODE1` (same value as `TO_SETUP_MODE1_LOW`). -/
def TO_SETUP_MODE1 : Nat := 4
/-- Trigger code `TO_SETUP_MODE1_LOW` (same value as `TO_SETUP_MODE1`). -/
def TO_SETUP_MODE1_LOW : Nat := 4
/-- Trigger code `TO_SETUP_MODE1_HI`. -/
def TO_SETUP_MODE1_HI : Nat := 5
/-- Trigger code `TO_SETUP_MODE2`. -/
def TO_SETUP_MODE2 : Nat := 6
/-- Trigger code `TO_SETUP_MODE2_BTN1`. -/
def TO_SETUP_MODE2_BTN1 : Nat := 7
/-- Trigger code `TO_SETUP_MODE2_BTN2`. -/
def TO_SETUP_MODE2_BTN2 : Nat := 8
/-- Trigger code `TO_SETUP_MODE3`. -/
def TO_SETUP_MODE3 : Nat := 9
/-- Trigger code `TO_SETUP_MODE3_BTN1_PC1`. -/
def TO_SETUP_MODE3_BTN1_PC1 : Nat := 10
/-- Trigger code `TO_SETUP_MODE3_BTN1_PC2`. -/
def TO_SETUP_MODE3_BTN1_PC2 : Nat := 11
/-- Trigger code `TO_SETUP_MODE3_BTN2_PC1`. -/
def TO_SETUP_MODE3_BTN2_PC1 : Nat := 12
/-- Trigger code `TO_SETUP_MODE3_BTN2_PC2`. -/
def TO_SETUP_MODE3_BTN2_PC2 : Nat := 13
/-- Trigger code `TO_SETUP_EXIT`. -/
def TO_SETUP_EXIT : Nat := 14
/-- Trigger code `TO_SETUP_MODE_START`. -/
def TO_SETUP_MODE_START : Nat := 15

/-- The transition table built by the `main_fsm.add_transition` calls in
`setup()` (the timed `state_init → state_run` transition is handled by the
`timePass` event below). For each source state the registered trigger codes
are pairwise distinct, so the table is a function. -/
def transTable (s : NavState) (c : Nat) : Option NavState :=
  match s with
  | .state_init => none
  | .state_run =>
      if c = TO_SETUP_MODE then some .state_setup_mode else none
  | .state_setup_mode =>
      if c = TO_SETUP_MIDI then some .state_setup_midi
      else if c = TO_SETUP_EXIT then some .state_setup_exit else none
  | .state_setup_midi =>
      if c = TO_SETUP_MODE1 then some .state_setup_mode1
      else if c = TO_SETUP_EXIT then some .state_setup_exit else none
  | .state_setup_mode1 =>
      if c = TO_SETUP_MODE2 then some .state_setup_mode2
      else if c = TO_SETUP_MODE1_LOW then some .state_setup_mode1_low
      else if c = TO_SETUP_EXIT then some .state_setup_exit else none
  | .state_setup_mode1_low =>
      if c = TO_SETUP_MODE1_HI then some .state_setup_mode1_hi
      else if c = TO_SETUP_EXIT then some .state_setup_exit else none
  | .state_setup_mode1_hi =>
      if c = TO_SETUP_MODE2 then some .state_setup_mode2
      else if c = TO_SETUP_EXIT then some .state_setup_exit else none
  | .state_setup_mode2 =>
      if c = TO_SETUP_MODE3 then some .state_setup_mode3
      else if c = TO_SETUP_MODE2_BTN1 then some .state_setup_mode2_btn1
      else if c = TO_SETUP_EXIT then some .state_setup_exit else none
  | .state_setup_mode2_btn1 =>
      if c = TO_SETUP_MODE2_BTN2 then some .state_setup_mode2_btn2
      else if c = TO_SETUP_EXIT then some .state_setup_exit else none
  | .state_setup_mode2_btn2 =>
      if c = TO_SETUP_MODE3 then some .state_setup_mode3
      else if c = TO_SETUP_EXIT then some .state_setup_exit else none
  | .state_setup_mode3 =>
      if c = TO_SETUP_EXIT then some .state_setup_exit
      else if c = TO_SETUP_MODE_START then some .state_setup_mode
      else if c = TO_SETUP_MODE3_BTN1_PC1 then some .state_setup_mode3_btn1PC1 else none
  | .state_setup_mode3_btn1PC1 =>
      if c = TO_SETUP_MODE3_BTN1_PC2 then some .state_setup_mode3_btn1PC2 else none
  | .state_setup_mode3_btn1PC2 =>
      if c = TO_SETUP_MODE3_BTN2_PC1 then some .state_setup_mode3_btn2PC1 else none
  | .state_setup_mode3_btn2PC1 =>
      if c = TO_SETUP_MODE3_BTN2_PC2 then some .state_setup_mode3_btn2PC2 else none
  | .state_setup_mode3_btn2PC2 =>
      if c = TO_SETUP_EXIT then some .state_setup_exit else none
  | .state_setup_exit =>
      if c = TO_RUN then some .state_run else none

/-- Choice made by the `switch(run_mode)` statement of `on_run_enter` for
`btn1.attachClick`: the `default` case attaches nothing, leaving the old
callback. -/
def runClick1 (m : Nat) (old : ClickHandler) : ClickHandler :=
  if m = 1 then .cyclePcDown
  else if m = 2 then .sendBtn1PC
  else if m = 3 then .sendBtn1TogglePC
  else old

/-- Choice made by the `switch(run_mode)` statement of `on_run_enter` for
`btn2.attachClick`. -/
def runClick2 (m : Nat) (old : ClickHandler) : ClickHandler :=
  if m = 1 then .cyclePcUp
  else if m = 2 then .sendBtn2PC
  else if m = 3 then .sendBtn2TogglePC
  else old

/-- The entry action of each state (`on_..._enter`), transcribed from the
source: which callbacks it attaches and what it pushes to the display.
`on_setup_mode1_hi_enter` attaches a long-press-stop callback only on
`btn1`; `on_setup_mode3_enter` and `on_setup_exit_enter` attach no click
callbacks; the four `on_setup_mode3_btn*PC*_enter` bodies are empty. -/
def enterState (t : NavState) (s : Sys) : Sys :=
  match t with
  | .state_init =>
      { s with display := .initVersion :: s.display }
  | .state_run =>
      { s with click1 := runClick1 s.run_mode s.click1
               click2 := runClick2 s.run_mode s.click2
               display := .dispOp s.run_mode :: s.display
               startsAttached := true
               stop1 := .longPressFromRun
               stop2 := .longPressFromRun }
  | .state_setup_mode =>
      { s with click1 := .modeDown
               click2 := .modeUp
               stop1 := .longPressFromSetupMode
               stop2 := .longPressFromSetupMode
               display := .dispSetupOp :: s.display }
  | .state_setup_midi =>
      { s with click1 := .midiChnDown
               click2 := .midiChnUp
               stop1 := .longPressFromSetupMidi
               stop2 := .longPressFromSetupMidi
               display := .dispSetupMidi :: s.display }
  | .state_setup_mode1 =>
      { s with click1 := .nullClick
               click2 := .nullClick
               stop1 := .longPressFromSetupMode1
               stop2 := .longPressFromSetupMode1
               display := .dispSetupMode1 :: s.display }
  | .state_setup_mode1_low =>
      { s with click1 := .mode1LowLimitDecrease
               click2 := .mode1LowLimitIncrease
               stop1 := .longPressFromSetupMode1Low
               stop2 := .longPressFromSetupMode1Low
               display := .dispSetupLow :: s.display }
  | .state_setup_mode1_hi =>
      { s with click1 := .mode1HiLimitDecrease
               click2 := .mode1HiLimitIncrease
               stop1 := .longPressFromSetupMode1Hi
               display := .dispSetupHi :: s.display }
  | .state_setup_mode2 =>
      { s with click1 := .nullClick
               click2 := .nullClick
               stop1 := .longPressFromSetupMode2
               stop2 := .longPressFromSetupMode2
               display := .dispSetupMode2 :: s.display }
  | .state_setup_mode2_btn1 =>
      { s with click1 := .mode2Btn1Decrease
               click2 := .mode2Btn1Increase
               stop1 := .longPressFromSetupMode2Btn1
               stop2 := .longPressFromSetupMode2Btn1
               display := .dispSetupB1 :: s.display }
  | .state_setup_mode2_btn2 =>
      { s with click1 := .mode2Btn2Decrease
               click2 := .mode2Btn2Increase
               stop1 := .longPressFromSetupMode2Btn2
               stop2 := .longPressFromSetupMode2Btn2
               display := .dispSetupB2 :: s.display }
  | .state_setup_mode3 =>
      { s with stop1 := .longPressFromSetupMode3
               stop2 := .longPressFromSetupMode3
               display := .dispSetupMode3 :: s.display }
  | .state_setup_mode3_btn1PC1 => s
  | .state_setup_mode3_btn1PC2 => s
  | .state_setup_mode3_btn2PC1 => s
  | .state_setup_mode3_btn2PC2 => s
  | .state_setup_exit =>
      { s with stop1 := .longPressToRun
               stop2 := .longPressToRun
               display := .dispSet :: s.display }

/-- Model of `main_fsm.trigger(c)`: on a table hit, run the exit action of
the source state (only `state_setup_exit` has one and it only calls
`delay(2000)`, which changes nothing modelled) and then the entry action of
the target state. -/
def trigger (c : Nat) (s : Sys) : Sys :=
  match transTable s.nav c with
  | none => s
  | some t => enterState t { s with nav := t }

/-- Run the click callback currently attached to a button. Each branch is
the body of the corresponding function in the source. -/
def applyClick (h : ClickHandler) (s : Sys) : Sys :=
  match h with
  | .unattached => s
  | .nullClick => s
  | .cyclePcDown =>
      let c := cyclePcDownVal s.settings s.mode1_currentPC
      { s with mode1_currentPC := c
               display := .dispPC c :: s.display
               sent := (c, s.settings.midiChannel) :: s.sent }
  | .cyclePcUp =>
      let c := cyclePcUpVal s.settings s.mode1_currentPC
      { s with mode1_currentPC := c
               display := .dispPC c :: s.display
               sent := (c, s.settings.midiChannel) :: s.sent }
  | .sendBtn1PC =>
      { s with display := .dispPC (s.settings.mode2_btn1PC : Int) :: s.display
               sent := ((s.settings.mode2_btn1PC : Int), s.settings.midiChannel) :: s.sent }
  | .sendBtn2PC =>
      { s with display := .dispPC (s.settings.mode2_btn2PC : Int) :: s.display
               sent := ((s.settings.mode2_btn2PC : Int), s.settings.midiChannel) :: s.sent }
  | .sendBtn1TogglePC =>
      let c := toggleBtn1Val s.settings s.mode3_current_btn1PC
      { s with mode3_current_btn1PC := c
               display := .dispPC c :: s.display
               sent := (c, s.settings.midiChannel) :: s.sent }
  | .sendBtn2TogglePC =>
      let c := toggleBtn2Val s.settings s.mode3_current_btn2PC
      { s with mode3_current_btn2PC := c
               display := .dispPC c :: s.display
               sent := (c, s.settings.midiChannel) :: s.sent }
  | .modeDown =>
      let m := modeDownVal s.run_mode
      { s with run_mode := m, display := .dispOp m :: s.display }
  | .modeUp =>
      let m := modeUpVal s.run_mode
      { s with run_mode := m, display := .dispOp m :: s.display }
  | .midiChnDown =>
      let v := midiChnDownVal s.settings.midiChannel
      { s with settings := { s.settings with midiChannel := v }
               display := .dispCh v :: s.display }
  | .midiChnUp =>
      let v := midiChnUpVal s.settings.midiChannel
      { s with settings := { s.settings with midiChannel := v }
               display := .dispCh v :: s.display }
  | .mode1LowLimitDecrease =>
      let v := pcEditDecVal s.settings.mode1_lowlimitPC
      { s with settings := { s.settings with mode1_lowlimitPC := v }
               display := .dispPC (v : Int) :: s.display }
  | .mode1LowLimitIncrease =>
      let v := pcEditIncVal s.settings.mode1_lowlimitPC
      { s with settings := { s.settings with mode1_lowlimitPC := v }
               display := .dispPC (v : Int) :: s.display }
  | .mode1HiLimitDecrease =>
      let v := pcEditDecVal s.settings.mode1_highlimitPC
      { s with settings := { s.settings with mode1_highlimitPC := v }
               display := .dispPC (v : Int) :: s.display }
  | .mode1HiLimitIncrease =>
      let v := pcEditIncVal s.settings.mode1_highlimitPC
      { s with settings := { s.settings with mode1_highlimitPC := v }
               display := .dispPC (v : Int) :: s.display }
  | .mode2Btn1Decrease =>
      let v := pcEditDecVal s.settings.mode2_btn1PC
      { s with settings := { s.settings with mode2_btn1PC := v }
               display := .dispPC (v : Int) :: s.display }
  | .mode2Btn1Increase =>
      let v := pcEditIncVal s.settings.mode2_btn1PC
      { s with settings := { s.settings with mode2_btn1PC := v }
               display := .dispPC (v : Int) :: s.display }
  | .mode2Btn2Decrease =>
      let v := pcEditDecVal s.settings.mode2_btn2PC
      { s with settings := { s.settings with mode2_btn2PC := v }
               display := .dispPC (v : Int) :: s.display }
  | .mode2Btn2Increase =>
      let v := pcEditIncVal s.settings.mode2_btn2PC
      { s with settings := { s.settings with mode2_btn2PC := v }
               display := .dispPC (v : Int) :: s.display }

/-- Run the long-press-stop callback currently attached to a button.
Each branch is the body of the corresponding `longPress...` function:
classify the latch combination, maybe fire a trigger, then always clear
both latches. -/
def applyStop (h : StopHandler) (s : Sys) : Sys :=
  match h with
  | .unattached => s
  | .longPressFromRun =>
      let s1 := if s.btn1_state = 1 ∧ s.btn2_state = 1 then trigger TO_SETUP_MODE s else s
      { s1 with btn1_state := 0, btn2_state := 0 }
  | .longPressFromSetupMode =>
      let s1 :=
        if s.btn1_state = 1 ∧ s.btn2_state = 0 then trigger TO_SETUP_EXIT s
        else if s.btn1_state = 0 ∧ s.btn2_state = 1 then trigger TO_SETUP_MIDI s
        else s
      { s1 with btn1_state := 0, btn2_state := 0 }
  | .longPressFromSetupMidi =>
      let s1 :=
        if s.btn1_state = 1 ∧ s.btn2_state = 0 then trigger TO_SETUP_EXIT s
        else if s.btn1_state = 0 ∧ s.btn2_state = 1 then trigger TO_SETUP_MODE1 s
        else s
      { s1 with btn1_state := 0, btn2_state := 0 }
  | .longPressFromSetupMode1 =>
      let s1 :=
        if s.btn1_state = 1 ∧ s.btn2_state = 1 then trigger TO_SETUP_MODE1_LOW s
        else if s.btn1_state = 0 ∧ s.btn2_state = 1 then trigger TO_SETUP_MODE2 s
        else if s.btn1_state = 1 ∧ s.btn2_state = 0 then trigger TO_SETUP_EXIT s
        else s
      { s1 with btn1_state := 0, btn2_state := 0 }
  | .longPressFromSetupMode1Low =>
      let s1 :=
        if s.btn1_state = 1 ∧ s.btn2_state = 0 then trigger TO_SETUP_EXIT s
        else if s.btn1_state = 0 ∧ s.btn2_state = 1 then trigger TO_SETUP_MODE1_HI s
        else s
      { s1 with btn1_state := 0, btn2_state := 0 }
  | .longPressFromSetupMode1Hi =>
      let s1 :=
        if s.btn1_state = 1 ∧ s.btn2_state = 0 then trigger TO_SETUP_EXIT s
        else if s.btn1_state = 1 ∧ s.btn2_state = 1 then trigger TO_SETUP_MODE2 s
        else s
      { s1 with btn1_state := 0, btn2_state := 0 }
  | .longPressFromSetupMode2 =>
      let s1 :=
        if s.btn1_state = 1 ∧ s.btn2_state = 0 then trigger TO_SETUP_EXIT s
        else if s.btn1_state = 1 ∧ s.btn2_state = 1 then trigger TO_SETUP_MODE2_BTN1 s
        else s
      { s1 with btn1_state := 0, btn2_state := 0 }
  | .longPressFromSetupMode2Btn1 =>
      let s1 :=
        if s.btn1_state = 1 ∧ s.btn2_state = 0 then trigger TO_SETUP_EXIT s
        else if s.btn1_state = 1 ∧ s.btn2_state = 1 then trigger TO_SETUP_MODE2_BTN2 s
        else s
      { s1 with btn1_state := 0, btn2_state := 0 }
  | .longPressFromSetupMode2Btn2 =>
      let s1 :=
        if s.btn1_state = 1 ∧ s.btn2_state = 0 then trigger TO_SETUP_EXIT s
        else if s.btn1_state = 1 ∧ s.btn2_state = 1 then trigger TO_SETUP_MODE3 s
        else s
      { s1 with btn1_state := 0, btn2_state := 0 }
  | .longPressFromSetupMode3 =>
      let s1 :=
        if s.btn1_state = 1 ∧ s.btn2_state = 0 then trigger TO_SETUP_EXIT s
        else if s.btn1_state = 0 ∧ s.btn2_state = 1 then trigger TO_SETUP_MODE_START s
        else s
      { s1 with btn1_state := 0, btn2_state := 0 }
  | .longPressToRun =>
      let s1 :=
        if s.btn1_state = 1 ∧ s.btn2_state = 1 then
          trigger TO_RUN
            { s with saves := s.settings :: s.saves
                     display := .dispSave :: s.display }
        else if s.btn1_state = 1 ∧ s.btn2_state = 0 then
          trigger TO_RUN { s with display := .dispRet :: s.display }
        else s
      { s1 with btn1_state := 0, btn2_state := 0 }

/-- The discrete inputs of one `loop()` pass: a click, long-press-start or
long-press-stop reported by `OneButton` for either button, or enough time
passing for the timed `state_init → state_run` transition. -/
inductive Event
  | click1
  | click2
  | longStart1
  | longStart2
  | longStop1
  | longStop2
  | timePass
deriving DecidableEq, Repr

/-- Dispatch one event through the currently attached callbacks.
`longPressStart1`/`longPressStart2` set the corresponding latch; they are
attached (only) by `on_run_enter` and never detached. -/
def step (e : Event) (s : Sys) : Sys :=
  match e with
  | .click1 => applyClick s.click1 s
  | .click2 => applyClick s.click2 s
  | .longStart1 => if s.startsAttached then { s with btn1_state := 1 } else s
  | .longStart2 => if s.startsAttached then { s with btn2_state := 1 } else s
  | .longStop1 => applyStop s.stop1 s
  | .longStop2 => applyStop s.stop2 s
  | .timePass =>
      if s.nav = .state_init then enterState .state_run { s with nav := .state_run } else s

/-- Run a list of events, oldest first. -/
def runEvents (l : List Event) (s : Sys) : Sys :=
  l.foldl (fun a e => step e a) s

/-- The state after `setup()` and the first `loop()` pass (which runs the
entry action of the initial state): settings read from the EEPROM through the
version gate, run-mode state seeded from the loaded settings, both latch
globals zero-initialised, no callbacks attached yet, FSM in `state_init`. -/
def boot (stored : Settings) : Sys :=
  let st := readSettings stored
  enterState .state_init
    { settings := st
      mode1_currentPC := (st.mode1_lowlimitPC : Int)
      mode3_current_btn1PC := (st.mode3_btn1PC1 : Int)
      mode3_current_btn2PC := (st.mode3_btn2PC1 : Int)
      btn1_state := 0
      btn2_state := 0
      run_mode := 1
      nav := .state_init
      click1 := .unattached
      click2 := .unattached
      stop1 := .unattached
      stop2 := .unattached
      startsAttached := false
      display := []
      sent := []
      saves := [] }

/-- A system state reachable from some boot by a sequence of events. -/
def Reachable (stored : Settings) (s : Sys) : Prop :=
  ∃ l : List Event, s = runEvents l (boot stored)

/-- Binding invariant: `longPressToRun` (the only callback that calls
`saveSettings`) is attached to a button only while the FSM is in
`state_setup_exit`. It holds at boot and is preserved by every event. -/
def SaveBindingInv (s : Sys) : Prop :=
  (s.stop1 = .longPressToRun → s.nav = .state_setup_exit) ∧
  (s.stop2 = .longPressToRun → s.nav = .state_setup_exit)

/-- The combo classifier belonging to each state: the long-press-stop
callback that the entry action of the state attaches (`unattached` for
`state_init` and the four empty `SetupMode3` sub-state entry actions,
which attach none). -/
def classifier : NavState → StopHandler
  | .state_init => .unattached
  | .state_run => .longPressFromRun
  | .state_setup_mode => .longPressFromSetupMode
  | .state_setup_midi => .longPressFromSetupMidi
  | .state_setup_mode1 => .longPressFromSetupMode1
  | .state_setup_mode1_low => .longPressFromSetupMode1Low
  | .state_setup_mode1_hi => .longPressFromSetupMode1Hi
  | .state_setup_mode2 => .longPressFromSetupMode2
  | .state_setup_mode2_btn1 => .longPressFromSetupMode2Btn1
  | .state_setup_mode2_btn2 => .longPressFromSetupMode2Btn2
  | .state_setup_mode3 => .longPressFromSetupMode3
  | .state_setup_mode3_btn1PC1 => .unattached
  | .state_setup_mode3_btn1PC2 => .unattached
  | .state_setup_mode3_btn2PC1 => .unattached
  | .state_setup_mode3_btn2PC2 => .unattached
  | .state_setup_exit => .longPressToRun

/-- Modelled from the spec: the gesture combinations (latch values of
button 1 and button 2 at long-press-stop time) that the transition table
of the spec enumerates for each state. Combinations outside this
predicate are the "not enumerated" gestures the spec says are absorbed. -/
def enumeratedCombo : NavState → Nat → Nat → Prop
  | .state_init, _, _ => False
  | .state_run, b1, b2 => b1 = 1 ∧ b2 = 1
  | .state_setup_mode, b1, b2 => (b1 = 1 ∧ b2 = 0) ∨ (b1 = 0 ∧ b2 = 1)
  | .state_setup_midi, b1, b2 => (b1 = 1 ∧ b2 = 0) ∨ (b1 = 0 ∧ b2 = 1)
  | .state_setup_mode1, b1, b2 =>
      (b1 = 1 ∧ b2 = 1) ∨ (b1 = 0 ∧ b2 = 1) ∨ (b1 = 1 ∧ b2 = 0)
  | .state_setup_mode1_low, b1, b2 => (b1 = 1 ∧ b2 = 0) ∨ (b1 = 0 ∧ b2 = 1)
  | .state_setup_mode1_hi, b1, b2 => (b1 = 1 ∧ b2 = 1) ∨ (b1 = 1 ∧ b2 = 0)
  | .state_setup_mode2, b1, b2 =>
      (b1 = 1 ∧ b2 = 1) ∨ (b1 = 0 ∧ b2 = 1) ∨ (b1 = 1 ∧ b2 = 0)
  | .state_setup_mode2_btn1, b1, b2 => (b1 = 1 ∧ b2 = 1) ∨ (b1 = 1 ∧ b2 = 0)
  | .state_setup_mode2_btn2, b1, b2 => (b1 = 1 ∧ b2 = 1) ∨ (b1 = 1 ∧ b2 = 0)
  | .state_setup_mode3, b1, b2 => (b1 = 1 ∧ b2 = 0) ∨ (b1 = 0 ∧ b2 = 1)
  | .state_setup_mode3_btn1PC1, _, _ => False
  | .state_setup_mode3_btn1PC2, _, _ => False
  | .state_setup_mode3_btn2PC1, _, _ => False
  | .state_setup_mode3_btn2PC2, _, _ => False
  | .state_setup_exit, b1, b2 => (b1 = 1 ∧ b2 = 1) ∨ (b1 = 1 ∧ b2 = 0)

/-- The entry action of `X` rebinds all four button callbacks (so the
result does not depend on the previously attached ones) and pushes one
display update. -/
def entrySame (X : NavState) (s t : Sys) : Prop :=
  (enterState X s).click1 = (enterState X t).click1 ∧
  (enterState X s).click2 = (enterState X t).click2 ∧
  (enterState X s).stop1 = (enterState X t).stop1 ∧
  (enterState X s).stop2 = (enterState X t).stop2 ∧
  (enterState X s).display.length = s.display.length + 1

/-- A concrete state in `state_run` with the bindings that `on_run_enter`
installs for `run_mode = 1`, used to instantiate theorems with hypotheses. -/
def sampleRunSys : Sys :=
  { settings := loadDefaultSettings
    mode1_currentPC := 0
    mode3_current_btn1PC := 19
    mode3_current_btn2PC := 21
    btn1_state := 0
    btn2_state := 0
    run_mode := 1
    nav := .state_run
    click1 := .cyclePcDown
    click2 := .cyclePcUp
    stop1 := .longPressFromRun
    stop2 := .longPressFromRun
    startsAttached := true
    display := []
    sent := []
    saves := [] }

/-- A stored EEPROM record with a stale version byte (0xFF) and arbitrary
other bytes; loading it yields the defaults. -/
def cexStored : Settings :=
  { sversion := 255
    midiChannel := 0
    mode1_lowlimitPC := 0
    mode1_highlimitPC := 0
    mode2_btn1PC := 0
    mode2_btn2PC := 0
    mode3_btn1PC1 := 0
    mode3_btn1PC2 := 0
    mode3_btn2PC1 := 0
    mode3_btn2PC2 := 0 }

/-- An event trace from boot: enter Run, navigate to the Mode-1 low-limit
edit screen, raise the low limit from 0 to 1, return to Run without saving,
then click button 1 once (running `cyclePcDown` with
`mode1_currentPC = 0 < mode1_lowlimitPC = 1`). -/
def cexTrace : List Event :=
  [.timePass,
   .longStart1, .longStart2, .longStop1, .longStop2,
   .longStart2, .longStop2,
   .longStart2, .longStop2,
   .longStart1, .longStart2, .longStop1, .longStop2,
   .click2,
   .longStart1, .longStop1,
   .longStart1, .longStop1,
   .click1]

/-- Dual long-press in Run: enter the setup mode-select screen. -/
def walkTrace1 : List Event := [.longStart1, .longStart2, .longStop1]

/-- Then a button-2-only long-press: on to the MIDI channel screen. -/
def walkTrace2 : List Event := walkTrace1 ++ [.longStart2, .longStop2]

/-- Then a button-1-only long-press: straight to the exit screen. -/
def walkTrace3 : List Event := walkTrace2 ++ [.longStart1, .longStop1]

/-- Then a button-1-only long-press: back to Run without saving. -/
def walkTrace4 : List Event := walkTrace3 ++ [.longStart1, .longStop1]

/-- An event trace from boot that parks the device in `state_setup_exit`
with both latches set, ready for the save gesture. -/
def saveTrace : List Event :=
  [.timePass,
   .longStart1, .longStart2, .longStop1,
   .longStart1, .longStop1,
   .longStart1, .longStart2]

/-- The state reached by `saveTrace` from a boot with a current-version
EEPROM record. -/
def saveSys : Sys := runEvents saveTrace (boot loadDefaultSettings)

/-! ## Basic preservation lemmas -/

theorem applyClick_nav (h : ClickHandler) (s : Sys) : (applyClick h s).nav = s.nav := by
  cases h <;> rfl

theorem applyClick_saves (h : ClickHandler) (s : Sys) : (applyClick h s).saves = s.saves := by
  cases h <;> rfl

theorem applyClick_stop1 (h : ClickHandler) (s : Sys) : (applyClick h s).stop1 = s.stop1 := by
  cases h <;> rfl

theorem applyClick_stop2 (h : ClickHandler) (s : Sys) : (applyClick h s).stop2 = s.stop2 := by
  cases h <;> rfl

theorem applyClick_sversion (h : ClickHandler) (s : Sys) :
    (applyClick h s).settings.sversion = s.settings.sversion := by
  cases h <;> rfl

theorem enterState_saves (t : NavState) (s : Sys) : (enterState t s).saves = s.saves := by
  cases t <;> rfl

theorem enterState_settings (t : NavState) (s : Sys) :
    (enterState t s).settings = s.settings := by
  cases t <;> rfl

theorem enterState_nav (t : NavState) (s : Sys) : (enterState t s).nav = s.nav := by
  cases t <;> rfl

theorem trigger_saves (c : Nat) (s : Sys) : (trigger c s).saves = s.saves := by
  unfold trigger
  cases htt : transTable s.nav c with
  | none => rfl
  | some t => exact enterState_saves t _

theorem trigger_settings (c : Nat) (s : Sys) : (trigger c s).settings = s.settings := by
  unfold trigger
  cases htt : transTable s.nav c with
  | none => rfl
  | some t => exact enterState_settings t _

/-! ## The save-binding invariant -/

theorem SaveBindingInv_trigger (c : Nat) (s : Sys) (hI : SaveBindingInv s)
    (h10 : c ≠ TO_SETUP_MODE3_BTN1_PC1) (h11 : c ≠ TO_SETUP_MODE3_BTN1_PC2)
    (h12 : c ≠ TO_SETUP_MODE3_BTN2_PC1) (h13 : c ≠ TO_SETUP_MODE3_BTN2_PC2) :
    SaveBindingInv (trigger c s) := by
  obtain ⟨h1, h2⟩ := hI
  unfold trigger
  cases hnav : s.nav <;> rw [hnav] at h1 h2 <;>
    simp only [transTable] <;>
    (try split_ifs) <;>
    simp_all [SaveBindingInv, enterState, TO_SETUP_MODE3_BTN1_PC1, TO_SETUP_MODE3_BTN1_PC2,
      TO_SETUP_MODE3_BTN2_PC1, TO_SETUP_MODE3_BTN2_PC2]

theorem SaveBindingInv_congr (a b : Sys) (h1 : a.stop1 = b.stop1) (h2 : a.stop2 = b.stop2)
    (h3 : a.nav = b.nav) (hI : SaveBindingInv b) : SaveBindingInv a := by
  unfold SaveBindingInv at hI ⊢
  rw [h1, h2, h3]
  exact hI

theorem SaveBindingInv_applyStop (h : StopHandler) (s : Sys) (hI : SaveBindingInv s) :
    SaveBindingInv (applyStop h s) := by
  cases h <;> simp only [applyStop] <;> (try split_ifs) <;>
    first
      | exact hI
      | exact SaveBindingInv_trigger _ _ hI (by decide) (by decide) (by decide) (by decide)

theorem SaveBindingInv_step (e : Event) (s : Sys) (hI : SaveBindingInv s) :
    SaveBindingInv (step e s) := by
  cases e with
  | click1 =>
      exact SaveBindingInv_congr _ s (applyClick_stop1 _ _) (applyClick_stop2 _ _)
        (applyClick_nav _ _) hI
  | click2 =>
      exact SaveBindingInv_congr _ s (applyClick_stop1 _ _) (applyClick_stop2 _ _)
        (applyClick_nav _ _) hI
  | longStart1 => simp only [step]; split <;> exact hI
  | longStart2 => simp only [step]; split <;> exact hI
  | longStop1 => exact SaveBindingInv_applyStop s.stop1 s hI
  | longStop2 => exact SaveBindingInv_applyStop s.stop2 s hI
  | timePass =>
      simp only [step]
      split
      · exact ⟨fun h => StopHandler.noConfusion h, fun h => StopHandler.noConfusion h⟩
      · exact hI

theorem SaveBindingInv_runEvents (l : List Event) (s : Sys) (hI : SaveBindingInv s) :
    SaveBindingInv (runEvents l s) := by
  induction l generalizing s with
  | nil => exact hI
  | cons e t ih => exact ih (step e s) (SaveBindingInv_step e s hI)

theorem SaveBindingInv_boot (stored : Settings) : SaveBindingInv (boot stored) :=
  ⟨fun h => StopHandler.noConfusion h, fun h => StopHandler.noConfusion h⟩

theorem SaveBindingInv_reachable (stored : Settings) (s : Sys) (hr : Reachable stored s) :
    SaveBindingInv s := by
  obtain ⟨l, rfl⟩ := hr
  exact SaveBindingInv_runEvents l (boot stored) (SaveBindingInv_boot stored)

theorem applyStop_saves_ne (h : StopHandler) (s : Sys) (hne : h ≠ .longPressToRun) :
    (applyStop h s).saves = s.saves := by
  cases h <;> (try exact absurd rfl hne) <;> simp only [applyStop] <;> (try split_ifs) <;>
    simp [trigger_saves]

/-- C1. The persistent-store write (`saveSettings` / `EEPROM.put`) happens
only from `state_setup_exit` with both gesture latches set at
long-press-stop time; that gesture performs exactly one save of the
current in-memory settings record and then transitions to `state_run`. -/
theorem save_only_on_dual_longpress_from_setup_exit
    (stored : Settings) (s : Sys) (hr : Reachable stored s) (e : Event)
    (hne : (step e s).saves ≠ s.saves) :
    s.nav = .state_setup_exit ∧ s.btn1_state = 1 ∧ s.btn2_state = 1 ∧
    (e = .longStop1 ∨ e = .longStop2) ∧
    (step e s).saves = s.settings :: s.saves ∧
    (step e s).nav = .state_run := by
  have hI := SaveBindingInv_reachable stored s hr
  cases e with
  | click1 => exact absurd (applyClick_saves s.click1 s) hne
  | click2 => exact absurd (applyClick_saves s.click2 s) hne
  | longStart1 => refine absurd ?_ hne; simp only [step]; split <;> rfl
  | longStart2 => refine absurd ?_ hne; simp only [step]; split <;> rfl
  | timePass =>
      refine absurd ?_ hne
      simp only [step]
      split
      · exact enterState_saves _ _
      · rfl
  | longStop1 =>
      by_cases ht : s.stop1 = .longPressToRun
      · have hnav := hI.1 ht
        by_cases hb : s.btn1_state = 1 ∧ s.btn2_state = 1
        · obtain ⟨hb1, hb2⟩ := hb
          have hsav : (step .longStop1 s).saves = s.settings :: s.saves := by
            simp [step, ht, applyStop, hb1, hb2, trigger_saves]
          have hnv : (step .longStop1 s).nav = .state_run := by
            simp [step, ht, applyStop, hb1, hb2, trigger, transTable, hnav, TO_RUN,
              enterState_nav]
          exact ⟨hnav, hb1, hb2, Or.inl rfl, hsav, hnv⟩
        · refine absurd ?_ hne
          simp only [step, ht, applyStop]
          rw [if_neg hb]
          split_ifs <;> simp [trigger_saves]
      · exact absurd (applyStop_saves_ne s.stop1 s ht) hne
  | longStop2 =>
      by_cases ht : s.stop2 = .longPressToRun
      · have hnav := hI.2 ht
        by_cases hb : s.btn1_state = 1 ∧ s.btn2_state = 1
        · obtain ⟨hb1, hb2⟩ := hb
          have hsav : (step .longStop2 s).saves = s.settings :: s.saves := by
            simp [step, ht, applyStop, hb1, hb2, trigger_saves]
          have hnv : (step .longStop2 s).nav = .state_run := by
            simp [step, ht, applyStop, hb1, hb2, trigger, transTable, hnav, TO_RUN,
              enterState_nav]
          exact ⟨hnav, hb1, hb2, Or.inr rfl, hsav, hnv⟩
        · refine absurd ?_ hne
          simp only [step, ht, applyStop]
          rw [if_neg hb]
          split_ifs <;> simp [trigger_saves]
      · exact absurd (applyStop_saves_ne s.stop2 s ht) hne

/-- Witness for C1 at a concrete reachable state: from `saveSys` (parked in
`state_setup_exit` with both latches set) a long-press-stop performs the
save and returns to `state_run`. -/
theorem save_only_on_dual_longpress_from_setup_exit_witness :
    saveSys.nav = .state_setup_exit ∧
    (step .longStop1 saveSys).saves = saveSys.settings :: saveSys.saves ∧
    (step .longStop1 saveSys).nav = .state_run := by
  have h := save_only_on_dual_longpress_from_setup_exit loadDefaultSettings saveSys
    ⟨saveTrace, rfl⟩ .longStop1 (by decide)
  exact ⟨h.1, h.2.2.2.2.1, h.2.2.2.2.2⟩

/-- C3. Loading with a stale version byte yields exactly the default record
(version `CONFIG_VERSION`, channel 1, mode-1 range [0,16], mode-2 {17,18},
mode-3 pairs {19,20} and {21,22}) regardless of the other stored bytes;
loading with a matching version byte keeps every stored field unchanged. -/
theorem load_version_gate_thm (stored : Settings) :
    (stored.sversion ≠ CONFIG_VERSION →
        readSettings stored =
          { sversion := CONFIG_VERSION
            midiChannel := 1
            mode1_lowlimitPC := 0
            mode1_highlimitPC := 16
            mode2_btn1PC := 17
            mode2_btn2PC := 18
            mode3_btn1PC1 := 19
            mode3_btn1PC2 := 20
            mode3_btn2PC1 := 21
            mode3_btn2PC2 := 22 }) ∧
    (stored.sversion = CONFIG_VERSION → readSettings stored = stored) := by
  constructor <;> intro h <;> simp [readSettings, h, loadDefaultSettings]

/-- Witness for C3: a stored record with version byte 0xFF and garbage
fields loads as the defaults; the same fields under version byte 1 load
unchanged. -/
theorem load_version_gate_witness :
    readSettings ⟨255, 3, 4, 5, 6, 7, 8, 9, 10, 11⟩ = loadDefaultSettings ∧
    readSettings ⟨1, 3, 4, 5, 6, 7, 8, 9, 10, 11⟩ = ⟨1, 3, 4, 5, 6, 7, 8, 9, 10, 11⟩ :=
  ⟨(load_version_gate_thm ⟨255, 3, 4, 5, 6, 7, 8, 9, 10, 11⟩).1 (by decide),
   (load_version_gate_thm ⟨1, 3, 4, 5, 6, 7, 8, 9, 10, 11⟩).2 rfl⟩

/-- C4. With `low < high ≤ 127` and the current value inside `[low, high]`:
decrement from `low` wraps to `high`, increment from `high` wraps to `low`,
and every other invocation moves the value by exactly one while staying
inside `[low, high]`. -/
theorem mode1_cycle_bounds_thm (st : Settings) (cur : Int)
    (hlh : st.mode1_lowlimitPC < st.mode1_highlimitPC)
    (hhi : st.mode1_highlimitPC ≤ 127)
    (hc1 : (st.mode1_lowlimitPC : Int) ≤ cur)
    (hc2 : cur ≤ (st.mode1_highlimitPC : Int)) :
    (cur = (st.mode1_lowlimitPC : Int) →
        cyclePcDownVal st cur = (st.mode1_highlimitPC : Int)) ∧
    (cur ≠ (st.mode1_lowlimitPC : Int) → cyclePcDownVal st cur = cur - 1) ∧
    (cur = (st.mode1_highlimitPC : Int) →
        cyclePcUpVal st cur = (st.mode1_lowlimitPC : Int)) ∧
    (cur ≠ (st.mode1_highlimitPC : Int) → cyclePcUpVal st cur = cur + 1) ∧
    ((st.mode1_lowlimitPC : Int) ≤ cyclePcDownVal st cur ∧
        cyclePcDownVal st cur ≤ (st.mode1_highlimitPC : Int)) ∧
    ((st.mode1_lowlimitPC : Int) ≤ cyclePcUpVal st cur ∧
        cyclePcUpVal st cur ≤ (st.mode1_highlimitPC : Int)) := by
  refine ⟨fun h => ?_, fun h => ?_, fun h => ?_, fun h => ?_, ?_, ?_⟩ <;>
    simp only [cyclePcDownVal, cyclePcUpVal] <;> split_ifs <;> omega

/-- Witness for C4 at the default bounds `[0, 16]` and current value 5. -/
theorem mode1_cycle_bounds_witness :
    cyclePcDownVal loadDefaultSettings 5 = 4 ∧
    cyclePcUpVal loadDefaultSettings 5 = 6 ∧
    cyclePcDownVal loadDefaultSettings 0 = 16 := by
  have h5 := mode1_cycle_bounds_thm loadDefaultSettings 5 (by decide) (by decide)
    (by decide) (by decide)
  have h0 := mode1_cycle_bounds_thm loadDefaultSettings 0 (by decide) (by decide)
    (by decide) (by decide)
  exact ⟨h5.2.1 (by decide), h5.2.2.2.1 (by decide), h0.1 (by decide)⟩

/-- Counterexample for C5 as stated: with `low = 5 > high = 0` and the
current value equal to `low`, the wrap condition of `cyclePcDown` does
trigger (the result is `high = 0`, not the simple decrement 4). -/
theorem inverted_bounds_wrap_counterexample :
    cyclePcDownVal
      { sversion := 1, midiChannel := 1, mode1_lowlimitPC := 5, mode1_highlimitPC := 0,
        mode2_btn1PC := 0, mode2_btn2PC := 0, mode3_btn1PC1 := 0, mode3_btn1PC2 := 0,
        mode3_btn2PC1 := 0, mode3_btn2PC2 := 0 } 5 = 0 ∧
    (0 : Int) ≠ 5 - 1 := by decide

/-- C5 amended. With `low > high` the wrap comparisons still fire on exact
equality with the respective bound; away from the bounds both operations
are plain unit steps, so from a value strictly above `low` repeated
increments never wrap and walk upward forever, and from a value strictly
below `high` repeated decrements walk downward forever. -/
theorem inverted_bounds_degenerate_thm (st : Settings) (cur : Int) (n : Nat)
    (hlh : st.mode1_highlimitPC < st.mode1_lowlimitPC) :
    (cur ≠ (st.mode1_lowlimitPC : Int) → cyclePcDownVal st cur = cur - 1) ∧
    (cur ≠ (st.mode1_highlimitPC : Int) → cyclePcUpVal st cur = cur + 1) ∧
    ((st.mode1_lowlimitPC : Int) < cur → (cyclePcUpVal st)^[n] cur = cur + n) ∧
    (cur < (st.mode1_highlimitPC : Int) → (cyclePcDownVal st)^[n] cur = cur - n) := by
  have hup : ∀ (m : Nat) (c : Int), (st.mode1_lowlimitPC : Int) < c →
      (cyclePcUpVal st)^[m] c = c + m := by
    intro m
    induction m with
    | zero => intro c _; simp
    | succ k ih =>
        intro c hc
        rw [Function.iterate_succ_apply]
        have hstep : cyclePcUpVal st c = c + 1 := by
          unfold cyclePcUpVal
          rw [if_neg (by omega)]
        rw [hstep, ih (c + 1) (by omega)]
        push_cast
        ring
  have hdown : ∀ (m : Nat) (c : Int), c < (st.mode1_highlimitPC : Int) →
      (cyclePcDownVal st)^[m] c = c - m := by
    intro m
    induction m with
    | zero => intro c _; simp
    | succ k ih =>
        intro c hc
        rw [Function.iterate_succ_apply]
        have hstep : cyclePcDownVal st c = c - 1 := by
          unfold cyclePcDownVal
          rw [if_neg (by omega)]
        rw [hstep, ih (c - 1) (by omega)]
        push_cast
        ring
  refine ⟨fun h => ?_, fun h => ?_, hup n cur, hdown n cur⟩
  · unfold cyclePcDownVal
    rw [if_neg h]
  · unfold cyclePcUpVal
    rw [if_neg h]

/-- Witness for C5 amended: with bounds `low = 5 > high = 0`, three
increments from 7 walk to 10 and three decrements from -2 walk to -5. -/
theorem inverted_bounds_degenerate_witness :
    (cyclePcUpVal
      { sversion := 1, midiChannel := 1, mode1_lowlimitPC := 5, mode1_highlimitPC := 0,
        mode2_btn1PC := 0, mode2_btn2PC := 0, mode3_btn1PC1 := 0, mode3_btn1PC2 := 0,
        mode3_btn2PC1 := 0, mode3_btn2PC2 := 0 })^[3] 7 = 10 ∧
    (cyclePcDownVal
      { sversion := 1, midiChannel := 1, mode1_lowlimitPC := 5, mode1_highlimitPC := 0,
        mode2_btn1PC := 0, mode2_btn2PC := 0, mode3_btn1PC1 := 0, mode3_btn1PC2 := 0,
        mode3_btn2PC1 := 0, mode3_btn2PC2 := 0 })^[3] (-2) = -5 := by
  have h7 := inverted_bounds_degenerate_thm
    { sversion := 1, midiChannel := 1, mode1_lowlimitPC := 5, mode1_highlimitPC := 0,
      mode2_btn1PC := 0, mode2_btn2PC := 0, mode3_btn1PC1 := 0, mode3_btn1PC2 := 0,
      mode3_btn2PC1 := 0, mode3_btn2PC2 := 0 } 7 3 (by decide)
  have h2 := inverted_bounds_degenerate_thm
    { sversion := 1, midiChannel := 1, mode1_lowlimitPC := 5, mode1_highlimitPC := 0,
      mode2_btn1PC := 0, mode2_btn2PC := 0, mode3_btn1PC1 := 0, mode3_btn1PC2 := 0,
      mode3_btn2PC1 := 0, mode3_btn2PC2 := 0 } (-2) 3 (by decide)
  refine ⟨?_, ?_⟩
  · rw [h7.2.2.1 (by decide)]; decide
  · rw [h2.2.2.2 (by decide)]; decide

/-- C9. Assuming the current value of a button is one of its two configured
pair values, the mode-3 toggle is an involution on that pair, and toggling
one button never changes the current value of the other button. -/
theorem toggle_involution_thm (st : Settings) (c1 c2 : Int) (s : Sys)
    (h1 : c1 = (st.mode3_btn1PC1 : Int) ∨ c1 = (st.mode3_btn1PC2 : Int))
    (h2 : c2 = (st.mode3_btn2PC1 : Int) ∨ c2 = (st.mode3_btn2PC2 : Int)) :
    toggleBtn1Val st (toggleBtn1Val st c1) = c1 ∧
    toggleBtn2Val st (toggleBtn2Val st c2) = c2 ∧
    (applyClick .sendBtn1TogglePC s).mode3_current_btn2PC = s.mode3_current_btn2PC ∧
    (applyClick .sendBtn2TogglePC s).mode3_current_btn1PC = s.mode3_current_btn1PC := by
  refine ⟨?_, ?_, rfl, rfl⟩
  · rcases h1 with h | h <;> subst h <;> unfold toggleBtn1Val <;> split_ifs <;> simp_all
  · rcases h2 with h | h <;> subst h <;> unfold toggleBtn2Val <;> split_ifs <;> simp_all

/-- Witness for C9 at the default pairs {19,20} and {21,22}. -/
theorem toggle_involution_witness :
    toggleBtn1Val loadDefaultSettings (toggleBtn1Val loadDefaultSettings 19) = 19 ∧
    toggleBtn2Val loadDefaultSettings (toggleBtn2Val loadDefaultSettings 22) = 22 ∧
    (applyClick .sendBtn1TogglePC sampleRunSys).mode3_current_btn2PC =
      sampleRunSys.mode3_current_btn2PC :=
  have h := toggle_involution_thm loadDefaultSettings 19 22 sampleRunSys
    (Or.inl (by decide)) (Or.inr (by decide))
  ⟨h.1, h.2.1, h.2.2.1⟩

/-- Counterexample for C6 as stated: a concrete reachable execution (boot
from a blank EEPROM, raise the mode-1 low limit from 0 to 1 in setup,
return to Run, click button 1) drives `mode1_currentPC` to -1 and passes
-1 to `MIDI.sendProgramChange`, outside [0,127]. -/
theorem mode1_escape_counterexample :
    (runEvents cexTrace (boot cexStored)).mode1_currentPC = -1 ∧
    (runEvents cexTrace (boot cexStored)).sent.head? = some (-1, 1) ∧
    ¬(0 ≤ (-1 : Int)) := by decide

/-- C6 amended. The setup edit operations self-bound by construction:
the channel edits preserve [1,16] and the program-number edits preserve
[0,127]; the mode-1 cycle operations keep the current value inside
[0,127] provided it lies inside `[low, high]` with `low ≤ high ≤ 127`
(without that coupling the cycle can leave the range, as the
counterexample shows). -/
theorem self_bounding_amended_thm (st : Settings) (cur : Int) (ch x : Nat)
    (hch1 : 1 ≤ ch) (hch2 : ch ≤ 16) (hx : x ≤ 127)
    (hlh : st.mode1_lowlimitPC ≤ st.mode1_highlimitPC)
    (hhi : st.mode1_highlimitPC ≤ 127)
    (hc1 : (st.mode1_lowlimitPC : Int) ≤ cur)
    (hc2 : cur ≤ (st.mode1_highlimitPC : Int)) :
    (0 ≤ cyclePcDownVal st cur ∧ cyclePcDownVal st cur ≤ 127) ∧
    (0 ≤ cyclePcUpVal st cur ∧ cyclePcUpVal st cur ≤ 127) ∧
    (1 ≤ midiChnDownVal ch ∧ midiChnDownVal ch ≤ 16) ∧
    (1 ≤ midiChnUpVal ch ∧ midiChnUpVal ch ≤ 16) ∧
    pcEditDecVal x ≤ 127 ∧
    pcEditIncVal x ≤ 127 := by
  refine ⟨?_, ?_, ?_, ?_, ?_, ?_⟩ <;>
    simp only [cyclePcDownVal, cyclePcUpVal, midiChnDownVal, midiChnUpVal,
      pcEditDecVal, pcEditIncVal, byteInc, byteDec] <;>
    split_ifs <;> omega

/-- Witness for C6 amended at channel 16, edit value 127, default bounds,
current value 3. -/
theorem self_bounding_amended_witness :
    (0 ≤ cyclePcDownVal loadDefaultSettings 3 ∧ cyclePcDownVal loadDefaultSettings 3 ≤ 127) ∧
    (1 ≤ midiChnUpVal 16 ∧ midiChnUpVal 16 ≤ 16) ∧
    pcEditIncVal 127 ≤ 127 :=
  have h := self_bounding_amended_thm loadDefaultSettings 3 16 127 (by decide) (by decide)
    (by decide) (by decide) (by decide) (by decide) (by decide)
  ⟨h.1, h.2.2.2.1, h.2.2.2.2.2⟩

theorem runEvents_append (a b : List Event) (s : Sys) :
    runEvents (a ++ b) s = runEvents b (runEvents a s) := by
  unfold runEvents
  exact List.foldl_append _ _ _ _

/-- C7. From Run: a dual long-press reaches the mode-select screen, a
button-2-only long-press reaches the MIDI screen, a button-1-only
long-press reaches the exit screen without visiting `state_setup_mode1`,
and a final button-1-only long-press returns to Run with the in-memory
settings unchanged and no save performed. -/
theorem setup_walk_scenario_thm (s : Sys)
    (hnav : s.nav = .state_run)
    (hs1 : s.stop1 = .longPressFromRun) (hs2 : s.stop2 = .longPressFromRun)
    (hb1 : s.btn1_state = 0) (hb2 : s.btn2_state = 0)
    (hsa : s.startsAttached = true) (hm : s.run_mode = 1) :
    (runEvents walkTrace1 s).nav = .state_setup_mode ∧
    (runEvents walkTrace2 s).nav = .state_setup_midi ∧
    (runEvents walkTrace3 s).nav = .state_setup_exit ∧
    (runEvents walkTrace4 s).nav = .state_run ∧
    (runEvents walkTrace4 s).settings = s.settings ∧
    (runEvents walkTrace4 s).saves = s.saves := by
  have h1 : step .longStart1 s = { s with btn1_state := 1 } := by
    simp [step, hsa]
  have h2 : step .longStart2 { s with btn1_state := 1 } =
      { s with btn1_state := 1, btn2_state := 1 } := by
    simp [step, hsa]
  have h3 : step .longStop1 { s with btn1_state := 1, btn2_state := 1 } =
      { s with btn1_state := 0, btn2_state := 0, nav := .state_setup_mode,
               click1 := .modeDown, click2 := .modeUp,
               stop1 := .longPressFromSetupMode, stop2 := .longPressFromSetupMode,
               display := .dispSetupOp :: s.display } := by
    simp [step, hs1, applyStop, trigger, transTable, hnav, enterState, TO_RUN, TO_SETUP_MODE, TO_SETUP_MIDI, TO_SETUP_MODE1, TO_SETUP_MODE1_LOW, TO_SETUP_MODE1_HI, TO_SETUP_MODE2, TO_SETUP_MODE2_BTN1, TO_SETUP_MODE2_BTN2, TO_SETUP_MODE3, TO_SETUP_MODE3_BTN1_PC1, TO_SETUP_MODE3_BTN1_PC2, TO_SETUP_MODE3_BTN2_PC1, TO_SETUP_MODE3_BTN2_PC2, TO_SETUP_EXIT, TO_SETUP_MODE_START]
  have hA : runEvents walkTrace1 s =
      { s with btn1_state := 0, btn2_state := 0, nav := .state_setup_mode,
               click1 := .modeDown, click2 := .modeUp,
               stop1 := .longPressFromSetupMode, stop2 := .longPressFromSetupMode,
               display := .dispSetupOp :: s.display } := by
    simp only [walkTrace1, runEvents, List.foldl]
    show step .longStop1 (step .longStart2 (step .longStart1 s)) = _
    rw [h1, h2, h3]
  have h4 : step .longStart2
      { s with btn1_state := 0, btn2_state := 0, nav := .state_setup_mode,
               click1 := .modeDown, click2 := .modeUp,
               stop1 := .longPressFromSetupMode, stop2 := .longPressFromSetupMode,
               display := .dispSetupOp :: s.display } =
      { s with btn1_state := 0, btn2_state := 1, nav := .state_setup_mode,
               click1 := .modeDown, click2 := .modeUp,
               stop1 := .longPressFromSetupMode, stop2 := .longPressFromSetupMode,
               display := .dispSetupOp :: s.display } := by
    simp [step, hsa]
  have h5 : step .longStop2
      { s with btn1_state := 0, btn2_state := 1, nav := .state_setup_mode,
               click1 := .modeDown, click2 := .modeUp,
               stop1 := .longPressFromSetupMode, stop2 := .longPressFromSetupMode,
               display := .dispSetupOp :: s.display } =
      { s with btn1_state := 0, btn2_state := 0, nav := .state_setup_midi,
               click1 := .midiChnDown, click2 := .midiChnUp,
               stop1 := .longPressFromSetupMidi, stop2 := .longPressFromSetupMidi,
               display := .dispSetupMidi :: .dispSetupOp :: s.display } := by
    simp [step, applyStop, trigger, transTable, enterState, TO_RUN, TO_SETUP_MODE, TO_SETUP_MIDI, TO_SETUP_MODE1, TO_SETUP_MODE1_LOW, TO_SETUP_MODE1_HI, TO_SETUP_MODE2, TO_SETUP_MODE2_BTN1, TO_SETUP_MODE2_BTN2, TO_SETUP_MODE3, TO_SETUP_MODE3_BTN1_PC1, TO_SETUP_MODE3_BTN1_PC2, TO_SETUP_MODE3_BTN2_PC1, TO_SETUP_MODE3_BTN2_PC2, TO_SETUP_EXIT, TO_SETUP_MODE_START]
  have hB : runEvents walkTrace2 s =
      { s with btn1_state := 0, btn2_state := 0, nav := .state_setup_midi,
               click1 := .midiChnDown, click2 := .midiChnUp,
               stop1 := .longPressFromSetupMidi, stop2 := .longPressFromSetupMidi,
               display := .dispSetupMidi :: .dispSetupOp :: s.display } := by
    rw [walkTrace2, runEvents_append, hA]
    show step .longStop2 (step .longStart2 _) = _
    rw [h4, h5]
  have h6 : step .longStart1
      { s with btn1_state := 0, btn2_state := 0, nav := .state_setup_midi,
               click1 := .midiChnDown, click2 := .midiChnUp,
               stop1 := .longPressFromSetupMidi, stop2 := .longPressFromSetupMidi,
               display := .dispSetupMidi :: .dispSetupOp :: s.display } =
      { s with btn1_state := 1, btn2_state := 0, nav := .state_setup_midi,
               click1 := .midiChnDown, click2 := .midiChnUp,
               stop1 := .longPressFromSetupMidi, stop2 := .longPressFromSetupMidi,
               display := .dispSetupMidi :: .dispSetupOp :: s.display } := by
    simp [step, hsa]
  have h7 : step .longStop1
      { s with btn1_state := 1, btn2_state := 0, nav := .state_setup_midi,
               click1 := .midiChnDown, click2 := .midiChnUp,
               stop1 := .longPressFromSetupMidi, stop2 := .longPressFromSetupMidi,
               display := .dispSetupMidi :: .dispSetupOp :: s.display } =
      { s with btn1_state := 0, btn2_state := 0, nav := .state_setup_exit,
               click1 := .midiChnDown, click2 := .midiChnUp,
               stop1 := .longPressToRun, stop2 := .longPressToRun,
               display := .dispSet :: .dispSetupMidi :: .dispSetupOp :: s.display } := by
    simp [step, applyStop, trigger, transTable, enterState, TO_RUN, TO_SETUP_MODE, TO_SETUP_MIDI, TO_SETUP_MODE1, TO_SETUP_MODE1_LOW, TO_SETUP_MODE1_HI, TO_SETUP_MODE2, TO_SETUP_MODE2_BTN1, TO_SETUP_MODE2_BTN2, TO_SETUP_MODE3, TO_SETUP_MODE3_BTN1_PC1, TO_SETUP_MODE3_BTN1_PC2, TO_SETUP_MODE3_BTN2_PC1, TO_SETUP_MODE3_BTN2_PC2, TO_SETUP_EXIT, TO_SETUP_MODE_START]
  have hC : runEvents walkTrace3 s =
      { s with btn1_state := 0, btn2_state := 0, nav := .state_setup_exit,
               click1 := .midiChnDown, click2 := .midiChnUp,
               stop1 := .longPressToRun, stop2 := .longPressToRun,
               display := .dispSet :: .dispSetupMidi :: .dispSetupOp :: s.display } := by
    rw [walkTrace3, runEvents_append, hB]
    show step .longStop1 (step .longStart1 _) = _
    rw [h6, h7]
  have h8 : step .longStart1
      { s with btn1_state := 0, btn2_state := 0, nav := .state_setup_exit,
               click1 := .midiChnDown, click2 := .midiChnUp,
               stop1 := .longPressToRun, stop2 := .longPressToRun,
               display := .dispSet :: .dispSetupMidi :: .dispSetupOp :: s.display } =
      { s with btn1_state := 1, btn2_state := 0, nav := .state_setup_exit,
               click1 := .midiChnDown, click2 := .midiChnUp,
               stop1 := .longPressToRun, stop2 := .longPressToRun,
               display := .dispSet :: .dispSetupMidi :: .dispSetupOp :: s.display } := by
    simp [step, hsa]
  have h9 : step .longStop1
      { s with btn1_state := 1, btn2_state := 0, nav := .state_setup_exit,
               click1 := .midiChnDown, click2 := .midiChnUp,
               stop1 := .longPressToRun, stop2 := .longPressToRun,
               display := .dispSet :: .dispSetupMidi :: .dispSetupOp :: s.display } =
      { s with btn1_state := 0, btn2_state := 0, nav := .state_run,
               click1 := .cyclePcDown, click2 := .cyclePcUp,
               stop1 := .longPressFromRun, stop2 := .longPressFromRun,
               startsAttached := true,
               display := .dispOp s.run_mode :: .dispRet :: .dispSet :: .dispSetupMidi ::
                 .dispSetupOp :: s.display } := by
    simp [step, applyStop, trigger, transTable, enterState, runClick1, runClick2, hm, TO_RUN, TO_SETUP_MODE, TO_SETUP_MIDI, TO_SETUP_MODE1, TO_SETUP_MODE1_LOW, TO_SETUP_MODE1_HI, TO_SETUP_MODE2, TO_SETUP_MODE2_BTN1, TO_SETUP_MODE2_BTN2, TO_SETUP_MODE3, TO_SETUP_MODE3_BTN1_PC1, TO_SETUP_MODE3_BTN1_PC2, TO_SETUP_MODE3_BTN2_PC1, TO_SETUP_MODE3_BTN2_PC2, TO_SETUP_EXIT, TO_SETUP_MODE_START]
  have hD : runEvents walkTrace4 s =
      { s with btn1_state := 0, btn2_state := 0, nav := .state_run,
               click1 := .cyclePcDown, click2 := .cyclePcUp,
               stop1 := .longPressFromRun, stop2 := .longPressFromRun,
               startsAttached := true,
               display := .dispOp s.run_mode :: .dispRet :: .dispSet :: .dispSetupMidi ::
                 .dispSetupOp :: s.display } := by
    rw [walkTrace4, runEvents_append, hC]
    show step .longStop1 (step .longStart1 _) = _
    rw [h8, h9]
  refine ⟨?_, ?_, ?_, ?_, ?_, ?_⟩
  · rw [hA]
  · rw [hB]
  · rw [hC]
  · rw [hD]
  · rw [hD]
  · rw [hD]

/-- Witness for C7 at the concrete run-state `sampleRunSys`. -/
theorem setup_walk_scenario_witness :
    (runEvents walkTrace1 sampleRunSys).nav = .state_setup_mode ∧
    (runEvents walkTrace4 sampleRunSys).nav = .state_run ∧
    (runEvents walkTrace4 sampleRunSys).saves = sampleRunSys.saves :=
  have h := setup_walk_scenario_thm sampleRunSys rfl rfl rfl rfl rfl rfl rfl
  ⟨h.1, h.2.2.2.1, h.2.2.2.2.2⟩

/-- C8. Every long-press-stop callback ends by clearing both gesture
latches, regardless of which transition (if any) fired; and in any state
whose entry action attached its combo classifier to both buttons, a latch
combination that the transition table does not enumerate for that state
changes nothing except clearing both latches (no trigger takes effect and
the navigation state is unchanged). -/
theorem latch_clear_absorb_thm :
    (∀ (h : StopHandler) (s : Sys), h ≠ .unattached →
        (applyStop h s).btn1_state = 0 ∧ (applyStop h s).btn2_state = 0) ∧
    (∀ s : Sys, s.stop1 = classifier s.nav → s.stop2 = classifier s.nav →
        classifier s.nav ≠ .unattached →
        ¬ enumeratedCombo s.nav s.btn1_state s.btn2_state →
        step .longStop1 s = { s with btn1_state := 0, btn2_state := 0 } ∧
        step .longStop2 s = { s with btn1_state := 0, btn2_state := 0 }) := by
  constructor
  · intro h s hne
    cases h
    · exact absurd rfl hne
    all_goals exact ⟨rfl, rfl⟩
  · intro s h1 h2 hcl hne
    cases hnav : s.nav <;> rw [hnav] at h1 h2 hcl hne <;>
      simp only [classifier] at h1 h2 hcl <;>
      simp only [enumeratedCombo] at hne <;>
      (try exact absurd rfl hcl) <;>
      push_neg at hne <;>
      constructor <;>
      simp only [step, h1, h2, applyStop] <;>
      (try split_ifs <;> simp_all) <;>
      rfl

/-- Witness for C8: a concrete stop clears the latches, and a concrete
button-2-only long-press in Run (not enumerated there) only clears the
latches. -/
theorem latch_clear_absorb_witness :
    ((applyStop .longPressFromRun { sampleRunSys with btn2_state := 1 }).btn1_state = 0 ∧
     (applyStop .longPressFromRun { sampleRunSys with btn2_state := 1 }).btn2_state = 0) ∧
    step .longStop2 { sampleRunSys with btn2_state := 1 } =
      { sampleRunSys with btn1_state := 0, btn2_state := 0 } := by
  have ha := latch_clear_absorb_thm.1 .longPressFromRun
    { sampleRunSys with btn2_state := 1 } (by decide)
  have hb := latch_clear_absorb_thm.2 { sampleRunSys with btn2_state := 1 }
    rfl rfl (by decide) (by simp [sampleRunSys, enumeratedCombo])
  exact ⟨ha, hb.2⟩

/-- Counterexample for C2 as stated: the entry action of
`state_setup_mode1_hi` does not rebind the long-press-stop callback of
button 2 (the result depends on what was attached before), the entry
action of `state_setup_mode3_btn1PC1` does nothing at all (no rebinding
and no display update), and the entry action of `state_setup_mode3` leaves
both click callbacks untouched. -/
theorem entry_contract_counterexample :
    (enterState .state_setup_mode1_hi
        { sampleRunSys with stop2 := .longPressFromSetupMode1Low }).stop2 =
      .longPressFromSetupMode1Low ∧
    (enterState .state_setup_mode1_hi
        { sampleRunSys with stop2 := .longPressFromRun }).stop2 =
      .longPressFromRun ∧
    StopHandler.longPressFromSetupMode1Low ≠ StopHandler.longPressFromSetupMode1Hi ∧
    enterState .state_setup_mode3_btn1PC1 sampleRunSys = sampleRunSys ∧
    (enterState .state_setup_mode3 sampleRunSys).click1 = sampleRunSys.click1 := by
  decide

/-- C2 amended. The full entry contract (rebind both click callbacks,
rebind both long-press-stop callbacks, push one status code) holds for
`state_run` (given `run_mode` in 1..3), `state_setup_mode`,
`state_setup_midi`, `state_setup_mode1`, `state_setup_mode1_low`,
`state_setup_mode2`, `state_setup_mode2_btn1` and `state_setup_mode2_btn2`.
`state_setup_mode1_hi` rebinds both clicks but only the button-1 stop,
leaving the button-2 stop as it was; `state_setup_mode3` and
`state_setup_exit` rebind both stops but no clicks; `state_init` only
pushes a status code; the four `state_setup_mode3_btn*PC*` stubs change
nothing. -/
theorem entry_contract_amended_thm (s t : Sys)
    (hm : s.run_mode = t.run_mode)
    (h3 : s.run_mode = 1 ∨ s.run_mode = 2 ∨ s.run_mode = 3) :
    entrySame .state_run s t ∧
    entrySame .state_setup_mode s t ∧
    entrySame .state_setup_midi s t ∧
    entrySame .state_setup_mode1 s t ∧
    entrySame .state_setup_mode1_low s t ∧
    entrySame .state_setup_mode2 s t ∧
    entrySame .state_setup_mode2_btn1 s t ∧
    entrySame .state_setup_mode2_btn2 s t ∧
    ((enterState .state_setup_mode1_hi s).click1 = (enterState .state_setup_mode1_hi t).click1 ∧
     (enterState .state_setup_mode1_hi s).click2 = (enterState .state_setup_mode1_hi t).click2 ∧
     (enterState .state_setup_mode1_hi s).stop1 = (enterState .state_setup_mode1_hi t).stop1 ∧
     (enterState .state_setup_mode1_hi s).stop2 = s.stop2 ∧
     (enterState .state_setup_mode1_hi s).display.length = s.display.length + 1) ∧
    ((enterState .state_setup_mode3 s).stop1 = (enterState .state_setup_mode3 t).stop1 ∧
     (enterState .state_setup_mode3 s).stop2 = (enterState .state_setup_mode3 t).stop2 ∧
     (enterState .state_setup_mode3 s).click1 = s.click1 ∧
     (enterState .state_setup_mode3 s).click2 = s.click2 ∧
     (enterState .state_setup_mode3 s).display.length = s.display.length + 1) ∧
    ((enterState .state_setup_exit s).stop1 = (enterState .state_setup_exit t).stop1 ∧
     (enterState .state_setup_exit s).stop2 = (enterState .state_setup_exit t).stop2 ∧
     (enterState .state_setup_exit s).click1 = s.click1 ∧
     (enterState .state_setup_exit s).click2 = s.click2 ∧
     (enterState .state_setup_exit s).display.length = s.display.length + 1) ∧
    ((enterState .state_init s).click1 = s.click1 ∧
     (enterState .state_init s).stop1 = s.stop1 ∧
     (enterState .state_init s).display.length = s.display.length + 1) ∧
    enterState .state_setup_mode3_btn1PC1 s = s ∧
    enterState .state_setup_mode3_btn1PC2 s = s ∧
    enterState .state_setup_mode3_btn2PC1 s = s ∧
    enterState .state_setup_mode3_btn2PC2 s = s := by
  refine ⟨?_, ?_, ?_, ?_, ?_, ?_, ?_, ?_, ?_, ?_, ?_, ?_, rfl, rfl, rfl, rfl⟩ <;>
    simp [entrySame, enterState, runClick1, runClick2] <;>
    rcases h3 with h | h | h <;>
    rw [h] at hm <;> simp [h, ← hm]

/-- Witness for C2 amended: the Run and mode-select entry actions rebind
identically from two concrete states with different prior click bindings. -/
theorem entry_contract_amended_witness :
    entrySame .state_run sampleRunSys { sampleRunSys with click1 := .nullClick } ∧
    entrySame .state_setup_mode sampleRunSys { sampleRunSys with click1 := .nullClick } :=
  have h := entry_contract_amended_thm sampleRunSys
    { sampleRunSys with click1 := .nullClick } rfl (Or.inl rfl)
  ⟨h.1, h.2.1⟩

/-! ## Version byte invariance (C10) -/

theorem readSettings_sversion (x : Settings) :
    (readSettings x).sversion = CONFIG_VERSION := by
  unfold readSettings
  split_ifs with h
  · rfl
  · push_neg at h
    exact h

theorem applyStop_settings (h : StopHandler) (s : Sys) :
    (applyStop h s).settings = s.settings := by
  cases h <;> simp only [applyStop] <;> (try split_ifs) <;> simp [trigger_settings]

theorem step_sversion (e : Event) (s : Sys) :
    (step e s).settings.sversion = s.settings.sversion := by
  cases e with
  | click1 => exact applyClick_sversion s.click1 s
  | click2 => exact applyClick_sversion s.click2 s
  | longStart1 => simp only [step]; split <;> rfl
  | longStart2 => simp only [step]; split <;> rfl
  | longStop1 => simp only [step]; rw [applyStop_settings]
  | longStop2 => simp only [step]; rw [applyStop_settings]
  | timePass =>
      simp only [step]
      split
      · rw [enterState_settings]
      · rfl

theorem runEvents_sversion (l : List Event) (s : Sys) :
    (runEvents l s).settings.sversion = s.settings.sversion := by
  induction l generalizing s with
  | nil => rfl
  | cons e t ih => exact (ih (step e s)).trans (step_sversion e s)

/-- C10. Every reachable in-memory settings record carries
`sversion = CONFIG_VERSION` (the boot-time load forces it and no handler
ever writes it), so saving it (`EEPROM.put` of the record as is) and
loading it back through the version gate restores the identical record. -/
theorem version_invariant_roundtrip_thm (stored : Settings) (s : Sys)
    (hr : Reachable stored s) :
    s.settings.sversion = CONFIG_VERSION ∧
    (∀ e : Event, (step e s).settings.sversion = s.settings.sversion) ∧
    readSettings s.settings = s.settings := by
  have hv : s.settings.sversion = CONFIG_VERSION := by
    obtain ⟨l, rfl⟩ := hr
    rw [runEvents_sversion]
    exact readSettings_sversion stored
  refine ⟨hv, fun e => step_sversion e s, ?_⟩
  unfold readSettings
  rw [hv]
  simp

/-- Witness for C10 at the boot state of a blank EEPROM. -/
theorem version_invariant_roundtrip_witness :
    (boot cexStored).settings.sversion = CONFIG_VERSION ∧
    readSettings (boot cexStored).settings = (boot cexStored).settings :=
  have h := version_invariant_roundtrip_thm cexStored (boot cexStored) ⟨[], rfl⟩
  ⟨h.1, h.2.2⟩
